import Mathlib

/-!
Shallow embedding of the reading-session core of `src/webreader/src/main.ts`
(mono-shelf EPUB reader): pure string helpers, the label index built by
`renderToc`, the progress computation of `updateProgress`, and the session
controller (`openBook`, `resetBook`, auth gating, session persistence).
-/

namespace MonoReader

/-- Model of JS `String.prototype.split(sep)` on character lists:
always returns a non-empty list of groups. -/
def splitChar (sep : Char) : List Char → List (List Char)
  | [] => [[]]
  | c :: rest =>
    match splitChar sep rest with
    | [] => [[]]
    | g :: gs => if c = sep then [] :: g :: gs else (c :: g) :: gs

/-- Model of `cleanHref` from main.ts line 200: `href.split('#')[0]` on char lists. -/
def cleanHrefL (l : List Char) : List Char :=
  match splitChar '#' l with
  | g :: _ => g
  | [] => l

/-- The `cleanHref` helper on strings. -/
def cleanHref (s : String) : String :=
  ⟨cleanHrefL s.data⟩

/-- JS whitespace test (the characters relevant to `trim`). -/
def isWsChar (c : Char) : Bool :=
  c = ' ' || c = '\t' || c = '\n' || c = '\r'

/-- JS `String.prototype.trim` on char lists. -/
def trimL (l : List Char) : List Char :=
  ((l.dropWhile isWsChar).reverse.dropWhile isWsChar).reverse

/-- JS `String.prototype.trim` on strings. -/
def jsTrim (s : String) : String :=
  ⟨trimL s.data⟩

/-- Model of the regex replacement `.replace(/\.[^.]+$/, '')` from
`cleanText`: drop a trailing dot-plus-extension when present. -/
def stripExtL (l : List Char) : List Char :=
  let parts := splitChar '.' l
  if parts.length ≥ 2 ∧ parts.getLastD [] ≠ [] then
    List.intercalate ['.'] parts.dropLast
  else l

/-- Model of `cleanText` from main.ts lines 202–208 on char lists: last `/`-segment,
`-`/`_` replaced by spaces, trailing extension stripped, trimmed. -/
def cleanTextL (l : List Char) : List Char :=
  let seg := (splitChar '/' l).getLastD l
  let repl := seg.map (fun c => if c = '-' ∨ c = '_' then ' ' else c)
  trimL (stripExtL repl)

/-- The `cleanText` helper on strings (the spec calls this `humanize`). -/
def cleanText (s : String) : String :=
  ⟨cleanTextL s.data⟩

/-- Rounds like JS `Math.round`: floor of the argument plus one half. -/
def jsRound (q : ℚ) : ℤ :=
  ⌊q + 1/2⌋

/-- The integer percent computed in `updateProgress` (main.ts line 271):
`Math.round(percentageFromCfi(...) * 100)` with the fractional position
modelled as a rational. -/
def percentOf (frac : ℚ) : ℤ :=
  jsRound (frac * 100)

/-- A table-of-contents entry (`NavItem` from epubjs as declared in the
repository's module declaration): id, href, label, ordered children. -/
inductive NavItem : Type where
  | mk (id href label : String) (subitems : List NavItem)

/-- The `href` field of a `NavItem`. -/
def NavItem.href : NavItem → String
  | .mk _ h _ _ => h

/-- The `label` field of a `NavItem`. -/
def NavItem.label : NavItem → String
  | .mk _ _ l _ => l

/-- The entries written into `navLabels` by `paint` inside `renderToc`
(main.ts lines 240–260), in write order: for each node in depth-first
pre-order, the pair `(cleanHref item.href, item.label.trim())`, node first,
then its subitems, then the rest of the list. -/
def paint : List NavItem → List (String × String)
  | [] => []
  | .mk _ href label subs :: rest =>
    (cleanHref href, jsTrim label) :: (paint subs ++ paint rest)

/-- The nodes of a TOC forest in depth-first pre-order visiting order. -/
def preorder : List NavItem → List NavItem
  | [] => []
  | .mk i h l subs :: rest =>
    .mk i h l subs :: (preorder subs ++ preorder rest)

/-- Custom induction principle for TOC forests, following the recursion
pattern of `paint`. -/
def navForestInd (P : List NavItem → Prop) (h0 : P [])
    (h1 : ∀ i h l subs rest, P subs → P rest → P (NavItem.mk i h l subs :: rest)) :
    ∀ items, P items
  | [] => h0
  | .mk i h l subs :: rest =>
    h1 i h l subs rest (navForestInd P h0 h1 subs) (navForestInd P h0 h1 rest)

/-- Lookup in a JS `Map` built by a sequence of `set` calls: the value of
the last entry whose key matches (later `set`s overwrite earlier ones). -/
def mapGet (entries : List (String × String)) (k : String) : Option String :=
  entries.foldl (fun acc e => if e.1 = k then some e.2 else acc) none

/-- Model of `LabelIndex.resolve`: the lookup done by the `rendered` handler
(main.ts lines 316–320), normalizing the reference with `cleanHref`
before the `Map.get`. -/
def resolveLabel (items : List NavItem) (ref : String) : Option String :=
  mapGet (paint items) (cleanHref ref)

/-- Model of `AuthUser` from main.ts lines 11–16. -/
structure AuthUser where
  id : String
  email : String
  displayName : String
  createdAt : Option String
deriving DecidableEq

/-- Model of `SessionPayload` from main.ts lines 18–21. -/
structure SessionPayload where
  token : String
  user : AuthUser
deriving DecidableEq

/-- A dropped or picked file, as far as `pickAndOpen` inspects it. -/
structure FileRec where
  name : String
deriving DecidableEq

/-- Model of JSON.stringify for `AuthUser` (field order of the API's
user objects). -/
def encodeUser (u : AuthUser) : String :=
  "\x7b\"id\":\"" ++ u.id ++ "\",\"email\":\"" ++ u.email ++
    "\",\"displayName\":\"" ++ u.displayName ++
    (match u.createdAt with
     | some c => "\",\"createdAt\":\"" ++ c ++ "\"\x7d"
     | none => "\"\x7d")

/-- Model of `JSON.stringify(payload)` as written by `persistSession`. -/
def encodePayload (p : SessionPayload) : String :=
  "\x7b\"token\":\"" ++ p.token ++ "\",\"user\":" ++ encodeUser p.user ++ "\x7d"

/-- The module-level mutable state of main.ts plus the displayed DOM
surfaces it writes to, and explicit resource tracking for the opaque
epubjs handles.  Handles are identified by `Nat` ids allocated from
`nextId`; `liveBooks`/`liveRends` hold ids of handles created and not yet
destroyed; `subscribed` holds rendition ids whose `on('rendered')` /
`on('relocated')` callbacks are attached (a destroyed rendition no longer
delivers events).  `locLen` models `book.locations.length()` for the book
currently held in `book` (0 until `generate` succeeds). -/
structure St where
  session : Option SessionPayload
  storage : Option String
  authMessage : String
  uiLocked : Bool
  book : Option Nat
  rendition : Option Nat
  liveBooks : List Nat
  liveRends : List Nat
  subscribed : List Nat
  navLabels : List (String × String)
  currentLabel : String
  status : String
  meta : String
  tocHtml : List String
  locLen : Nat
  nextId : Nat
  errorLog : Nat
  warnLog : List String
  fileInputVal : String
  collabCalls : List String
deriving DecidableEq

/-- The state right after the module-level initialisation of main.ts
(before `bootstrapSession` runs), with empty local storage. -/
def initSt : St where
  session := none
  storage := none
  authMessage := "sign in to unlock the reader"
  uiLocked := true
  book := none
  rendition := none
  liveBooks := []
  liveRends := []
  subscribed := []
  navLabels := []
  currentLabel := "idle"
  status := "idle"
  meta := "no book loaded"
  tocHtml := []
  locLen := 0
  nextId := 0
  errorLog := 0
  warnLog := []
  fileInputVal := ""
  collabCalls := []

/-- Model of `setStatus` (main.ts line 192). -/
def setStatus (st : St) (text : String) : St :=
  { st with status := text }

/-- Model of `setMeta` (main.ts lines 196–198): show `"title / author"` when the
author argument is present, non-empty and has non-blank trim, else the
title alone. -/
def setMeta (st : St) (title : String) (author : Option String) : St :=
  { st with meta :=
      match author with
      | some a => if a ≠ "" ∧ jsTrim a ≠ "" then title ++ " / " ++ a else title
      | none => title }

/-- Model of `updateAuthUI` (main.ts lines 131–141), restricted to the modelled
surfaces: the lock state and the auth message. -/
def updateAuthUI (st : St) : St :=
  { st with uiLocked := st.session.isNone,
            authMessage :=
              if st.session.isSome then "reader unlocked"
              else "sign in to unlock the reader" }

/-- Model of `persistSession` (main.ts lines 143–151): set the in-memory session,
mirror it into local storage (write the JSON for a payload, remove the
entry for `null`), then refresh the auth UI. -/
def persistSession (st : St) (payload : Option SessionPayload) : St :=
  updateAuthUI
    { st with session := payload, storage := payload.map encodePayload }

/-- The failing branch of `guardAuth` (main.ts lines 153–161): set the
auth message and the status, refuse the action. -/
def guardFail (st : St) : St :=
  { st with authMessage := "sign in first - then import",
            status := "login required to open books" }

/-- Model of `bootstrapSession` (main.ts lines 172–188).  `parseRes` is the
outcome of `JSON.parse` on the stored blob (`none` = it threw), `api`
the outcome of the `/api/auth/me` call (`none` = it failed). -/
def bootstrapSession (st : St) (parseRes : Option SessionPayload)
    (api : Option AuthUser) : St :=
  match st.storage with
  | none => updateAuthUI st
  | some _ =>
    match parseRes with
    | none => persistSession st none
    | some parsed =>
      let st1 := updateAuthUI { st with session := some parsed }
      match api with
      | some u => persistSession st1 (some ⟨parsed.token, u⟩)
      | none => persistSession st1 none

/-- Model of `resetBook` (main.ts lines 210–225): clear the label index, the
current label, the TOC panel and the viewer, destroy the rendition if one
is held (which detaches its event subscriptions), null it out, destroy
the book if one is held, null it out.  (When a handle is already `null`
the corresponding branch is skipped, so the field updates below coincide
with the source's two `if` blocks.) -/
def resetBook (st : St) : St :=
  { st with
    navLabels := [],
    currentLabel := "idle",
    tocHtml := [],
    rendition := none,
    liveRends :=
      match st.rendition with
      | some r => st.liveRends.filter (fun x => x ≠ r)
      | none => st.liveRends,
    subscribed :=
      match st.rendition with
      | some r => st.subscribed.filter (fun x => x ≠ r)
      | none => st.subscribed,
    book := none,
    liveBooks :=
      match st.book with
      | some b => st.liveBooks.filter (fun x => x ≠ b)
      | none => st.liveBooks,
    locLen :=
      match st.book with
      | some _ => 0
      | none => st.locLen }

/-- Model of `renderToc` (main.ts lines 227–264), state part: clear the panel,
paint the placeholder for an empty TOC, else append the painted entries
to `navLabels` and show the pre-order labels in the panel. -/
def renderToc (st : St) (items : List NavItem) : St :=
  { st with
    navLabels :=
      if items.length = 0 then st.navLabels
      else st.navLabels ++ paint items,
    tocHtml :=
      if items.length = 0 then ["continuous scroll / no markers yet"]
      else (preorder items).map NavItem.label }

/-- Model of `updateProgress` (main.ts lines 266–274): bail out without touching
the status when no book is held or the location index is empty, else
publish `"{label} / {pct}%"`.  `frac` is the collaborator's answer to
`percentageFromCfi(location.start.cfi)`. -/
def updateProgress (st : St) (frac : ℚ) : St :=
  if st.book = none ∨ st.locLen = 0 then st
  else
    let label := if st.currentLabel = "" then "reading" else st.currentLabel
    setStatus st (label ++ " / " ++ toString (percentOf frac) ++ "%")

/-- The `rendered` callback body (main.ts lines 316–320): normalize the
section href, resolve through the label index with the `cleanText`
fallback, store and publish the label. -/
def onRendered (st : St) (href : String) : St :=
  let normalized := cleanHref href
  let lbl := (mapGet st.navLabels normalized).getD (cleanText normalized)
  setStatus { st with currentLabel := lbl } lbl

/-- Delivery of a `rendered` event from rendition `r`: a destroyed
rendition has no attached callbacks, so the event has no effect. -/
def fireRendered (st : St) (r : Nat) (href : String) : St :=
  if r ∈ st.subscribed then onRendered st href else st

/-- Delivery of a `relocated` event from rendition `r`. -/
def fireRelocated (st : St) (r : Nat) (frac : ℚ) : St :=
  if r ∈ st.subscribed then updateProgress st frac else st

/-- The outcomes of the asynchronous collaborator steps of one `openBook`
invocation: whether each awaited promise resolves, and the data the
successful ones deliver. -/
structure LoadEnv where
  bufferOk : Bool
  readyOk : Bool
  navOk : Bool
  toc : List NavItem
  displayOk : Bool
  metaOk : Bool
  title : Option String
  creator : Option String
  genOk : Bool
  genLen : Nat

/-- The catch block of `openBook` (main.ts lines 342–345):
`console.error` then status `'unable to load epub'`. -/
def loadFail (st : St) : St :=
  { st with errorLog := st.errorLog + 1, status := "unable to load epub" }

/-- The finally block of `openBook` (main.ts lines 345–347). -/
def clearInput (st : St) : St :=
  { st with fileInputVal := "" }

/-- The synchronous prefix of `openBook` (main.ts lines 297–299), run
before the first suspension (`await file.arrayBuffer()`): tear down,
show the raw file name, set the loading status. -/
def openBookStart (st : St) (fileName : String) : St :=
  setStatus (setMeta (resetBook st) fileName none) "loading epub..."

/-- Continuation after `file.arrayBuffer()` resolves (main.ts line 303):
`book = ePub(buffer)` allocates a fresh book handle into the module-level
`book`, then `await book.ready` suspends. -/
def resumeBuffer (st : St) : St :=
  { st with book := some st.nextId,
            liveBooks := st.nextId :: st.liveBooks,
            locLen := 0,
            nextId := st.nextId + 1 }

/-- Continuation after `book.ready` resolves (main.ts lines 306–324):
`book.renderTo` allocates a rendition handle, `applyTheme` styles it (no
modelled state), and the two event callbacks are subscribed; then
`await book.loaded.navigation` suspends. -/
def resumeReady (st : St) : St :=
  { st with rendition := some st.nextId,
            liveRends := st.nextId :: st.liveRends,
            subscribed := st.nextId :: st.subscribed,
            nextId := st.nextId + 1 }

/-- Continuation after `book.loaded.navigation` resolves (main.ts
lines 326–327): `renderToc(navigation.toc ?? [])`; then
`await rendition.display()` suspends. -/
def resumeNav (st : St) (toc : List NavItem) : St :=
  renderToc st toc

/-- Continuation after `book.loaded.metadata` resolves (main.ts
lines 331–333): displayed title is the trimmed metadata title when
non-blank, else `cleanText(file.name)`; author is the trimmed creator. -/
def resumeMeta (st : St) (env : LoadEnv) (fileName : String) : St :=
  let title :=
    match env.title with
    | some t => if jsTrim t ≠ "" then jsTrim t else cleanText fileName
    | none => cleanText fileName
  setMeta st title (env.creator.map jsTrim)

/-- The inner try around `book.locations.generate(1400)` (main.ts
lines 335–339): on success the location index has `genLen` entries, on
failure `console.warn('locations unavailable', ...)` and the index stays
empty. -/
def resumeGen (st : St) (env : LoadEnv) : St :=
  if env.genOk then { st with locLen := env.genLen }
  else { st with warnLog := st.warnLog ++ ["locations unavailable"] }

/-- One full `openBook(file)` run (main.ts lines 296–348) with no other
task interleaved: the sequence of segments between suspension points; a
rejected await jumps to the catch block, the finally block always runs. -/
def openBook (env : LoadEnv) (fileName : String) (st : St) : St :=
  let s0 := openBookStart st fileName
  if env.bufferOk = false then clearInput (loadFail s0) else
  let s1 := resumeBuffer s0
  if env.readyOk = false then clearInput (loadFail s1) else
  let s2 := resumeReady s1
  if env.navOk = false then clearInput (loadFail s2) else
  let s3 := resumeNav s2 env.toc
  if env.displayOk = false then clearInput (loadFail s3) else
  if env.metaOk = false then clearInput (loadFail s3) else
  let s5 := resumeMeta s3 env fileName
  let s6 := resumeGen s5 env
  clearInput (setStatus s6 "use arrows, nav, or scroll freely")

/-- JS `name.toLowerCase().endsWith('.epub')`. -/
def lowerEndsWithEpub (s : String) : Bool :=
  (".epub".data).isSuffixOf (s.data.map Char.toLower)

/-- Model of `pickAndOpen` (main.ts lines 350–361): auth gate first, then select
the first `.epub`-named file (else the first file) and launch `openBook`
on it.  Returns the new state and the name of the file whose `openBook`
was launched, if any. -/
def pickAndOpen (st : St) (files : Option (List FileRec)) :
    St × Option String :=
  if st.session = none then (guardFail st, none)
  else
    match files with
    | none => (st, none)
    | some fs =>
      if fs.length = 0 then (st, none)
      else
        let m :=
          match fs.find? (fun c => lowerEndsWithEpub c.name) with
          | some c => c
          | none => fs.headD ⟨""⟩
        (st, some m.name)

/-- The drop listener (main.ts lines 485–490) delegates to
`pickAndOpen` on the transferred files. -/
def dropFiles (st : St) (files : Option (List FileRec)) :
    St × Option String :=
  pickAndOpen st files

/-- The `prevBtn` click handler (main.ts lines 367–373): auth gate, then
delegate to `rendition?.prev()` (a collaborator call, recorded). -/
def prevClick (st : St) : St :=
  if st.session = none then guardFail st
  else
    match st.rendition with
    | some r => { st with collabCalls := st.collabCalls ++ ["prev " ++ toString r] }
    | none => st

/-- The `nextBtn` click handler (main.ts lines 375–381). -/
def nextClick (st : St) : St :=
  if st.session = none then guardFail st
  else
    match st.rendition with
    | some r => { st with collabCalls := st.collabCalls ++ ["next " ++ toString r] }
    | none => st

/-- The `logoutBtn` click handler (main.ts lines 427–432). -/
def logoutClick (st : St) : St :=
  setStatus
    (setMeta (resetBook (persistSession st none)) "no book loaded" none)
    "signed out"

/-- The durable-storage/session coherence property of claim C10: the
stored blob is the JSON serialization of the in-memory session exactly
when one is held, absent exactly when none is. -/
def sessionStorageInv (st : St) : Prop :=
  st.storage = st.session.map encodePayload

/-- A load environment failing at step 8 (the TOC fetch,
`book.loaded.navigation` rejects) after the book and rendition handles
were already constructed. -/
def c1FailEnv : LoadEnv :=
  ⟨true, true, false, [], true, true, none, none, true, 0⟩

/-- A fully successful load environment with an empty TOC. -/
def c3Env : LoadEnv :=
  ⟨true, true, true, [], true, true, some "T", none, true, 1400⟩

/-- The state of a session mid-`openBook` at the moment
`book.locations.generate(1400)` has been initiated but has not yet
settled: every earlier segment has run. -/
def c3Pre : St :=
  resumeMeta
    (resumeNav (resumeReady (resumeBuffer (openBookStart initSt "book.epub")))
      c3Env.toc)
    c3Env "book.epub"

/-- A load environment whose only failure is `generate` rejecting. -/
def c3wEnv : LoadEnv :=
  ⟨true, true, true, [], true, true, none, none, false, 0⟩

/-- Environment of the superseded load A: its file reads fine but
`book.ready` rejects (corrupt book). -/
def c2EnvA : LoadEnv :=
  ⟨true, false, true, [], true, true, none, none, true, 0⟩

/-- Environment of the newer load B: fully successful. -/
def c2EnvB : LoadEnv :=
  ⟨true, true, true, [], true, true, some "Book B", some "B. Author", true, 1400⟩

/-- The state after the legal single-threaded schedule: A's `openBook`
runs its synchronous prefix and suspends on `file.arrayBuffer()`; B's
`openBook` then runs start to finish (B's call settles). -/
def c2AfterB : St :=
  openBook c2EnvB "b.epub" (openBookStart initSt "a.epub")

/-- The state after A's superseded continuation then resumes: its
`arrayBuffer` resolves, `book = ePub(buffer)` overwrites the module-level
book handle (`resumeBuffer`), A's `book.ready` rejects (`c2EnvA`), and
A's catch and finally blocks run. -/
def c2Final : St :=
  clearInput (loadFail (resumeBuffer c2AfterB))

/-- A state holding a live, subscribed rendition with id 0. -/
def c2WSt : St :=
  { initSt with rendition := some 0, liveRends := [0], subscribed := [0],
                nextId := 1 }

/-- A TOC with two nodes sharing the fragment-stripped href
`"ch/a.html"`; the child is visited last in pre-order. -/
def c6Items : List NavItem :=
  [.mk "1" "ch/a.html#top" " Alpha " [.mk "2" "ch/a.html" "Beta" []]]

/-- A fresh-process revalidation state: the module just initialised
(in-memory session still null) while local storage holds a previously
persisted blob — the state `bootstrapSession` actually runs from when a
cached session exists. -/
def c10RevSt : St :=
  { initSt with storage := some "old-blob" }

/-- A concrete user as returned by `/api/auth/me`. -/
def c10User : AuthUser :=
  ⟨"1", "a@b.com", "ab", none⟩

/-- A concrete parsed `SessionPayload` from the stored blob. -/
def c10Pay : SessionPayload :=
  ⟨"tok", c10User⟩

/-! ## Supporting lemmas -/

theorem foldl_overwrite (l : List (String × String)) (k : String)
    (acc : Option String) :
    l.foldl (fun a e => if e.1 = k then some e.2 else a) acc =
      match (l.filter (fun e => decide (e.1 = k))).getLast? with
      | some e => some e.2
      | none => acc := by
  induction l using List.reverseRecOn with
  | nil => rfl
  | append_singleton t e ih =>
    rw [List.foldl_append, List.foldl_cons, List.foldl_nil, List.filter_append]
    by_cases h : e.1 = k
    · simp [h, List.filter_cons, List.getLast?_concat]
    · simp [h, List.filter_cons, ih]

theorem mapGet_eq_getLast (l : List (String × String)) (k : String) :
    mapGet l k =
      ((l.filter (fun e => decide (e.1 = k))).getLast?).map Prod.snd := by
  rw [mapGet, foldl_overwrite]
  cases (l.filter (fun e => decide (e.1 = k))).getLast? <;> rfl

theorem mem_of_getLast?_eq {α : Type} {l : List α} {a : α}
    (h : l.getLast? = some a) : a ∈ l := by
  induction l with
  | nil => simp at h
  | cons x t ih =>
    cases t with
    | nil => simp_all
    | cons y ys =>
      rw [List.getLast?_cons_cons] at h
      exact List.mem_cons_of_mem x (ih h)

theorem paint_eq_map (items : List NavItem) :
    paint items =
      (preorder items).map (fun n => (cleanHref n.href, jsTrim n.label)) := by
  induction items using navForestInd with
  | h0 => simp [paint, preorder]
  | h1 i h l subs rest ih1 ih2 =>
    simp [paint, preorder, ih1, ih2, NavItem.href, NavItem.label]

/-! ## Claims -/

/-- C9 (confirmed): `humanize("chapters/intro_01.xhtml") == "intro 01"`:
`cleanText` takes the last path segment, replaces `-`/`_` with spaces,
strips the trailing extension and trims. -/
theorem C9_humanize_example :
    cleanText "chapters/intro_01.xhtml" = "intro 01" := by
  decide

/-- C8 (confirmed): for every location input (any fractional position
`frac`), `updateProgress` reports no number — it leaves the state, and in
particular the status line, untouched — whenever the location index has
not finished building or has length 0 (both represented by
`locLen = 0`). -/
theorem C8_percent_unavailable (st : St) (frac : ℚ) (h : st.locLen = 0) :
    updateProgress st frac = st := by
  unfold updateProgress
  simp [h]

theorem C8_percent_unavailable_witness :
    initSt.locLen = 0 ∧ updateProgress initSt (1/2) = initSt :=
  ⟨rfl, C8_percent_unavailable initSt (1/2) rfl⟩

/-- C5 (corrected), counterexample: a fractional position of 0.5005 maps
to 50.05%, which `Math.round` takes to 50, not the 51 the claim
states. -/
theorem C5_round_counterexample :
    percentOf (0.5005 : ℚ) = 50 ∧ (50 : ℤ) ≠ 51 := by
  constructor
  · norm_num [percentOf, jsRound]
  · decide

/-- C5 (amended): `percentOf` rounds to the nearest integer percent with
halves rounded up (away from zero on this nonnegative domain), so 0.505
yields 51% — 0.5005 yields 50% — and for every fractional position in
[0, 1] the result lies within [0, 100]. -/
theorem C5_round_amended :
    percentOf (0.505 : ℚ) = 51 ∧
    ∀ q : ℚ, 0 ≤ q → q ≤ 1 → 0 ≤ percentOf q ∧ percentOf q ≤ 100 := by
  constructor
  · norm_num [percentOf, jsRound]
  · intro q h0 h1
    unfold percentOf jsRound
    constructor
    · exact Int.le_floor.mpr (by push_cast; linarith)
    · have h2 : q * 100 + 1/2 < ((101 : ℤ) : ℚ) := by push_cast; linarith
      have := Int.floor_lt.mpr h2
      omega

theorem C5_round_amended_witness :
    (0 : ℚ) ≤ 1/2 ∧ (1/2 : ℚ) ≤ 1 ∧
    (0 ≤ percentOf (1/2) ∧ percentOf (1/2) ≤ 100) :=
  ⟨by norm_num, by norm_num,
    C5_round_amended.2 (1/2) (by norm_num) (by norm_num)⟩

/-- C4 (corrected), counterexample: on a `relocated` event with the
percentage unavailable (`locLen = 0`), the claim says the current label
alone ("chapter 1") is published; the code's `updateProgress` returns
early and publishes nothing, leaving the previous status
("loading epub...") on screen. -/
theorem C4_relocated_counterexample :
    updateProgress
        { initSt with book := some 0, liveBooks := [0],
                      currentLabel := "chapter 1",
                      status := "loading epub..." } (1/2)
      = { initSt with book := some 0, liveBooks := [0],
                      currentLabel := "chapter 1",
                      status := "loading epub..." } ∧
    ("loading epub..." : String) ≠ "chapter 1" := by
  constructor
  · decide
  · decide

/-- C4 (amended): on `relocated`, if the Progress Tracker has a
percentage available the status published is `"{label} / {pct}%"` (with
the label defaulting to "reading" when empty); otherwise the handler
returns without publishing anything — the state, including the status,
is left unchanged. -/
theorem C4_relocated_amended (st : St) (frac : ℚ) :
    (st.book = none ∨ st.locLen = 0 → updateProgress st frac = st) ∧
    (st.book ≠ none → st.locLen ≠ 0 →
      (updateProgress st frac).status =
        (if st.currentLabel = "" then "reading" else st.currentLabel) ++
          " / " ++ toString (percentOf frac) ++ "%") := by
  constructor
  · intro h
    rcases h with h | h <;> simp [updateProgress, h]
  · intro h1 h2
    simp [updateProgress, h1, h2, setStatus]

theorem C4_relocated_amended_witness :
    updateProgress initSt 0 = initSt ∧
    (updateProgress
        { initSt with book := some 0, liveBooks := [0], locLen := 2 }
        (1/2)).status = "idle / 50%" := by
  have h50 : percentOf (1/2 : ℚ) = 50 := by norm_num [percentOf, jsRound]
  refine ⟨(C4_relocated_amended initSt 0).1 (Or.inl rfl), ?_⟩
  rw [(C4_relocated_amended _ (1/2)).2 (by simp) (by simp), h50]
  decide

/-- C7 (confirmed): with no cached session, each reading entry point —
file pick (`pickAndOpen`), drop-file handling, `prev`, `next` — refuses
the action: the only state change is the user-visible message pair (auth
message "sign in first - then import", status "login required to open
books"), no `openBook` is launched, no collaborator call is made, and the
reading state (book, rendition, label index, current label) is
untouched. -/
theorem C7_auth_gate (st : St) (files : Option (List FileRec))
    (h : st.session = none) :
    pickAndOpen st files = (guardFail st, none) ∧
    dropFiles st files = (guardFail st, none) ∧
    prevClick st = guardFail st ∧
    nextClick st = guardFail st ∧
    guardFail st =
      { st with authMessage := "sign in first - then import",
                status := "login required to open books" } := by
  refine ⟨?_, ?_, ?_, ?_, rfl⟩ <;>
    simp [pickAndOpen, dropFiles, prevClick, nextClick, h]

theorem C7_auth_gate_witness :
    initSt.session = none ∧
    pickAndOpen initSt (some [⟨"a.epub"⟩]) = (guardFail initSt, none) ∧
    prevClick initSt = guardFail initSt :=
  ⟨rfl, (C7_auth_gate initSt (some [⟨"a.epub"⟩]) rfl).1,
    (C7_auth_gate initSt (some [⟨"a.epub"⟩]) rfl).2.2.1⟩

/-- C10 (confirmed): after each operation that sets or clears the
session — `persistSession` with a payload or `null`, `bootstrapSession`
on any of its paths, and logout — local storage holds the serialized
in-memory session exactly when it is non-null and is absent exactly when
it is null.  The `bootstrapSession` coverage is twofold: whenever a
stored blob exists (the revalidation-success and revalidation-failure
cases the claim names) the mirror property holds afterwards with no
assumption on the pre-state at all, since both outcomes funnel through
`persistSession`; and from any process-start-shaped state (in-memory
session still null, as at the sole call site, main.ts line 190) it holds
afterwards on the no-stored-blob branch too. -/
theorem C10_storage_mirrors_session (st : St) (p : Option SessionPayload)
    (parseRes : Option SessionPayload) (api : Option AuthUser) :
    sessionStorageInv (persistSession st p) ∧
    (∀ s, st.storage = some s →
      sessionStorageInv (bootstrapSession st parseRes api)) ∧
    (st.session = none →
      sessionStorageInv (bootstrapSession st parseRes api)) ∧
    sessionStorageInv (logoutClick st) := by
  refine ⟨?_, ?_, ?_, ?_⟩
  · simp [persistSession, updateAuthUI, sessionStorageInv]
  · intro s hs
    unfold bootstrapSession
    rw [hs]
    cases parseRes <;> cases api <;>
      simp [persistSession, updateAuthUI, sessionStorageInv]
  · intro hsess
    unfold bootstrapSession
    cases hs : st.storage with
    | none => simp [updateAuthUI, sessionStorageInv, hs, hsess]
    | some s =>
      cases parseRes <;> cases api <;>
        simp [persistSession, updateAuthUI, sessionStorageInv]
  · simp [logoutClick, setStatus, setMeta, resetBook, persistSession,
      updateAuthUI, sessionStorageInv]

/-- C1 (corrected), counterexample: `openBook` failing mid-sequence (here
at the TOC fetch) publishes "unable to load epub" — not the claimed
"unable to load book" — and does **not** return the session to Idle: the
book and rendition handles constructed during the failed attempt are
still assigned, live and subscribed after the call returns; the catch
block never releases them (only the next `resetBook` will). -/
theorem C1_idle_counterexample :
    (openBook c1FailEnv "broken.epub" initSt).status = "unable to load epub" ∧
    (openBook c1FailEnv "broken.epub" initSt).status ≠ "unable to load book" ∧
    (openBook c1FailEnv "broken.epub" initSt).book = some 0 ∧
    (openBook c1FailEnv "broken.epub" initSt).rendition = some 1 ∧
    (openBook c1FailEnv "broken.epub" initSt).liveBooks = [0] ∧
    (openBook c1FailEnv "broken.epub" initSt).liveRends = [1] ∧
    (openBook c1FailEnv "broken.epub" initSt).subscribed = [1] := by
  decide

set_option maxHeartbeats 3200000 in
/-- C1 (amended): when any of the awaited load steps 3–10 fails, the
status published is "unable to load epub" and the error is logged, but
the handles partially constructed during the attempt are *not* released:
whenever the file read succeeded, the book handle allocated by this
attempt is still assigned and live after `openBook` returns, and
whenever the book additionally became ready, the rendition handle
allocated by this attempt is still assigned, live and subscribed.  They
are released only by the next teardown: both a subsequent `openBook`
(whose synchronous prefix `openBookStart` runs `resetBook` first, for
any file) and `logoutClick` drop them from the live and subscribed
sets. -/
theorem C1_idle_amended (st : St) (f : String) (env : LoadEnv)
    (hfail : env.bufferOk = false ∨ env.readyOk = false ∨ env.navOk = false ∨
      env.displayOk = false ∨ env.metaOk = false) :
    (openBook env f st).status = "unable to load epub" ∧
    (openBook env f st).errorLog = st.errorLog + 1 ∧
    (env.bufferOk = true →
      (openBook env f st).book = some st.nextId ∧
      st.nextId ∈ (openBook env f st).liveBooks ∧
      (∀ g, st.nextId ∉ (openBookStart (openBook env f st) g).liveBooks) ∧
      st.nextId ∉ (logoutClick (openBook env f st)).liveBooks) ∧
    (env.bufferOk = true → env.readyOk = true →
      (openBook env f st).rendition = some (st.nextId + 1) ∧
      st.nextId + 1 ∈ (openBook env f st).liveRends ∧
      st.nextId + 1 ∈ (openBook env f st).subscribed ∧
      (∀ g, st.nextId + 1 ∉ (openBookStart (openBook env f st) g).liveRends ∧
        st.nextId + 1 ∉ (openBookStart (openBook env f st) g).subscribed) ∧
      st.nextId + 1 ∉ (logoutClick (openBook env f st)).liveRends ∧
      st.nextId + 1 ∉ (logoutClick (openBook env f st)).subscribed) := by
  obtain ⟨bo, ro, no, toc, dk, mo, ti, cr, go, gl⟩ := env
  cases bo <;> cases ro <;> cases no <;> cases dk <;> cases mo <;>
    simp_all [openBook, openBookStart, resumeBuffer, resumeReady, resumeNav,
      renderToc, resumeMeta, resumeGen, loadFail, clearInput, setStatus,
      setMeta, resetBook, logoutClick, persistSession, updateAuthUI]

theorem C1_idle_amended_witness :
    (c1FailEnv.bufferOk = false ∨ c1FailEnv.readyOk = false ∨
      c1FailEnv.navOk = false ∨ c1FailEnv.displayOk = false ∨
      c1FailEnv.metaOk = false) ∧
    (openBook c1FailEnv "a.epub" initSt).status = "unable to load epub" ∧
    (openBook c1FailEnv "a.epub" initSt).errorLog = initSt.errorLog + 1 ∧
    ((openBook c1FailEnv "a.epub" initSt).book = some initSt.nextId ∧
      initSt.nextId ∈ (openBook c1FailEnv "a.epub" initSt).liveBooks ∧
      initSt.nextId ∉
        (openBookStart (openBook c1FailEnv "a.epub" initSt) "b.epub").liveBooks ∧
      initSt.nextId ∉
        (logoutClick (openBook c1FailEnv "a.epub" initSt)).liveBooks) ∧
    ((openBook c1FailEnv "a.epub" initSt).rendition = some (initSt.nextId + 1) ∧
      initSt.nextId + 1 ∈ (openBook c1FailEnv "a.epub" initSt).liveRends ∧
      initSt.nextId + 1 ∈ (openBook c1FailEnv "a.epub" initSt).subscribed ∧
      initSt.nextId + 1 ∉
        (openBookStart (openBook c1FailEnv "a.epub" initSt) "b.epub").liveRends ∧
      initSt.nextId + 1 ∉
        (openBookStart (openBook c1FailEnv "a.epub" initSt) "b.epub").subscribed ∧
      initSt.nextId + 1 ∉
        (logoutClick (openBook c1FailEnv "a.epub" initSt)).liveRends ∧
      initSt.nextId + 1 ∉
        (logoutClick (openBook c1FailEnv "a.epub" initSt)).subscribed) := by
  have h := C1_idle_amended initSt "a.epub" c1FailEnv
    (Or.inr (Or.inr (Or.inl rfl)))
  have hb := h.2.2.1 rfl
  have hr := h.2.2.2 rfl rfl
  exact ⟨Or.inr (Or.inr (Or.inl rfl)), h.1, h.2.1,
    ⟨hb.1, hb.2.1, hb.2.2.1 "b.epub", hb.2.2.2⟩,
    ⟨hr.1, hr.2.1, hr.2.2.1, (hr.2.2.2.1 "b.epub").1, (hr.2.2.2.1 "b.epub").2,
      hr.2.2.2.2.1, hr.2.2.2.2.2⟩⟩

/-- C3 (corrected), counterexample: location-index generation is *not*
detached — `openBook` awaits `generate` inline.  At the suspension point
where `generate` is pending (`c3Pre`), the status still reads
"loading epub...", not the ready status; the full run factors as the
post-`generate` continuation applied to `c3Pre`, and even once `generate`
has settled (`resumeGen`) the ready status has not yet been published —
only the continuation's final `setStatus` publishes it.  So the
transition to Ready is blocked on `generate` settling. -/
theorem C3_blocking_counterexample :
    c3Pre.status = "loading epub..." ∧
    c3Pre.status ≠ "use arrows, nav, or scroll freely" ∧
    openBook c3Env "book.epub" initSt =
      clearInput
        (setStatus (resumeGen c3Pre c3Env) "use arrows, nav, or scroll freely") ∧
    (resumeGen c3Pre c3Env).status = "loading epub..." := by
  decide

/-- C3 (amended): generation is awaited inline before the ready status
(blocking it), but its failure is handled exactly as the claim's second
half describes: a warning "locations unavailable" is logged, the ready
status is still published, reading proceeds, and the sole lasting effect
is that the location index stays empty so percentage reporting is
suppressed (`updateProgress` leaves the state untouched). -/
theorem C3_generate_amended (st : St) (f : String) (env : LoadEnv)
    (hb : env.bufferOk = true) (hr : env.readyOk = true)
    (hn : env.navOk = true) (hd : env.displayOk = true)
    (hm : env.metaOk = true) (hg : env.genOk = false) :
    (openBook env f st).status = "use arrows, nav, or scroll freely" ∧
    (openBook env f st).warnLog = st.warnLog ++ ["locations unavailable"] ∧
    (openBook env f st).locLen = 0 ∧
    ∀ frac : ℚ, updateProgress (openBook env f st) frac = openBook env f st := by
  have hlen : (openBook env f st).locLen = 0 := by
    simp [openBook, hb, hr, hn, hd, hm, hg, openBookStart, resumeBuffer,
      resumeReady, resumeNav, renderToc, resumeMeta, setMeta, resumeGen,
      clearInput, setStatus, resetBook]
  refine ⟨?_, ?_, hlen, ?_⟩
  · simp [openBook, hb, hr, hn, hd, hm, hg, openBookStart, resumeBuffer,
      resumeReady, resumeNav, renderToc, resumeMeta, setMeta, resumeGen,
      clearInput, setStatus, resetBook]
  · simp [openBook, hb, hr, hn, hd, hm, hg, openBookStart, resumeBuffer,
      resumeReady, resumeNav, renderToc, resumeMeta, setMeta, resumeGen,
      clearInput, setStatus, resetBook]
  · intro frac
    simp [updateProgress, hlen]

theorem C3_generate_amended_witness :
    (openBook c3wEnv "b.epub" initSt).status = "use arrows, nav, or scroll freely" ∧
    (openBook c3wEnv "b.epub" initSt).warnLog = ["locations unavailable"] ∧
    updateProgress (openBook c3wEnv "b.epub" initSt) (1/2) =
      openBook c3wEnv "b.epub" initSt := by
  have h := C3_generate_amended initSt "b.epub" c3wEnv rfl rfl rfl rfl rfl rfl
  exact ⟨h.1, by rw [h.2.1]; rfl, h.2.2.2 (1/2)⟩

/-- C2 (corrected), counterexample: late-arriving completions of a
superseded load are *not* guarded.  After book B's `openBook` settles
with the ready status, the still-pending continuation of book A's
superseded `openBook` resumes and overwrites the displayed status with
"unable to load epub" and the module-level book handle with a fresh
handle for A — state set by the newer load is clobbered (no generation
guard exists in the code). -/
theorem C2_guard_counterexample :
    c2AfterB.status = "use arrows, nav, or scroll freely" ∧
    c2Final.status = "unable to load epub" ∧
    c2Final.status ≠ c2AfterB.status ∧
    c2AfterB.book = some 0 ∧
    c2Final.book = some 2 ∧
    c2Final.book ≠ c2AfterB.book := by
  decide

/-- C2 (amended): the half of the claim the code does enforce — via
teardown rather than a generation counter.  Opening a new book first
destroys the previous session's rendition (`resetBook` inside
`openBook`), detaching its event subscriptions, so after the new
`openBook` settles no "rendered" or "relocated" event from the old
rendering handle mutates any state: delivery on the destroyed handle is a
no-op.  (`hfresh` records that the old handle's id predates this
allocation round.) -/
theorem C2_guard_amended (st : St) (r : Nat) (f : String) (env : LoadEnv)
    (hrend : st.rendition = some r) (hfresh : r < st.nextId)
    (href : String) (frac : ℚ) :
    r ∉ (openBook env f st).subscribed ∧
    fireRendered (openBook env f st) r href = openBook env f st ∧
    fireRelocated (openBook env f st) r frac = openBook env f st := by
  have hsub : r ∉ (openBook env f st).subscribed := by
    obtain ⟨bo, ro, no, toc, dk, mo, ti, cr, go, gl⟩ := env
    cases bo <;> cases ro <;> cases no <;> cases dk <;> cases mo <;> cases go <;>
      simp_all [openBook, openBookStart, resumeBuffer, resumeReady, resumeNav,
        renderToc, resumeMeta, setMeta, resumeGen, loadFail, clearInput,
        setStatus, resetBook, hrend] <;>
      exact Nat.ne_of_lt (Nat.lt_succ_of_lt hfresh)
  exact ⟨hsub, by simp [fireRendered, hsub], by simp [fireRelocated, hsub]⟩

theorem C2_guard_amended_witness :
    c2WSt.rendition = some 0 ∧ 0 < c2WSt.nextId ∧
    0 ∉ (openBook c2EnvB "b.epub" c2WSt).subscribed ∧
    fireRendered (openBook c2EnvB "b.epub" c2WSt) 0 "x.html" =
      openBook c2EnvB "b.epub" c2WSt ∧
    fireRelocated (openBook c2EnvB "b.epub" c2WSt) 0 (1/2) =
      openBook c2EnvB "b.epub" c2WSt := by
  have h := C2_guard_amended c2WSt 0 "b.epub" c2EnvB rfl (by decide) "x.html" (1/2)
  exact ⟨rfl, by decide, h.1, h.2.1, h.2.2⟩

/-- C6 (confirmed): for every TOC tree and every reference appearing in
it (some node's fragment-stripped href matches the fragment-stripped
reference), the label index built by the pre-order walk resolves the
reference to a non-null label, and that label is the trimmed label text
of the last node in pre-order visiting order whose fragment-stripped href
equals the reference (later duplicates overwrite earlier ones). -/
theorem C6_label_index (items : List NavItem) (ref : String)
    (hmem : (preorder items).any
        (fun n => decide (cleanHref n.href = cleanHref ref)) = true) :
    ∃ m,
      ((preorder items).filter
          (fun n => decide (cleanHref n.href = cleanHref ref))).getLast?
        = some m ∧
      m ∈ preorder items ∧
      resolveLabel items ref = some (jsTrim m.label) := by
  set p : NavItem → Bool :=
    fun n => decide (cleanHref n.href = cleanHref ref) with hp
  have hne : (preorder items).filter p ≠ [] := by
    rcases List.any_eq_true.mp hmem with ⟨x, hx, hpx⟩
    intro hnil
    exact absurd hpx (by simpa using List.filter_eq_nil_iff.mp hnil x hx)
  obtain ⟨m, hm⟩ : ∃ m, ((preorder items).filter p).getLast? = some m := by
    cases hg : ((preorder items).filter p).getLast? with
    | none => exact absurd (List.getLast?_eq_none_iff.mp hg) hne
    | some m => exact ⟨m, rfl⟩
  refine ⟨m, hm, List.mem_of_mem_filter (mem_of_getLast?_eq hm), ?_⟩
  have hres : resolveLabel items ref =
      (((preorder items).filter p).getLast?).map (fun n => jsTrim n.label) := by
    rw [resolveLabel, paint_eq_map, mapGet_eq_getLast, List.filter_map,
      List.getLast?_map, Option.map_map]
    rfl
  rw [hres, hm]
  rfl

theorem C6_label_index_witness :
    ((preorder c6Items).any
        (fun n => decide (cleanHref n.href = cleanHref "ch/a.html#x")) = true) ∧
    (∃ m,
      ((preorder c6Items).filter
          (fun n => decide (cleanHref n.href = cleanHref "ch/a.html#x"))).getLast?
        = some m ∧
      m ∈ preorder c6Items ∧
      resolveLabel c6Items "ch/a.html#x" = some (jsTrim m.label)) ∧
    resolveLabel c6Items "ch/a.html#x" = some "Beta" := by
  have hmem : (preorder c6Items).any
      (fun n => decide (cleanHref n.href = cleanHref "ch/a.html#x")) = true := by
    simp only [c6Items, preorder]
    decide
  refine ⟨hmem, C6_label_index c6Items "ch/a.html#x" hmem, ?_⟩
  simp [c6Items, resolveLabel, paint, mapGet]
  decide

theorem C10_storage_mirrors_session_witness :
    c10RevSt.storage = some "old-blob" ∧
    c10RevSt.session = none ∧
    sessionStorageInv (persistSession c10RevSt (some c10Pay)) ∧
    sessionStorageInv
      (bootstrapSession c10RevSt (some c10Pay) (some c10User)) ∧
    sessionStorageInv (bootstrapSession c10RevSt (some c10Pay) none) ∧
    sessionStorageInv (bootstrapSession initSt none none) ∧
    sessionStorageInv (logoutClick c10RevSt) :=
  ⟨rfl, rfl,
    (C10_storage_mirrors_session c10RevSt (some c10Pay) (some c10Pay)
      (some c10User)).1,
    (C10_storage_mirrors_session c10RevSt (some c10Pay) (some c10Pay)
      (some c10User)).2.1 "old-blob" rfl,
    (C10_storage_mirrors_session c10RevSt (some c10Pay) (some c10Pay)
      none).2.1 "old-blob" rfl,
    (C10_storage_mirrors_session initSt none none none).2.2.1 rfl,
    (C10_storage_mirrors_session c10RevSt (some c10Pay) (some c10Pay)
      (some c10User)).2.2.2⟩

end MonoReader
